import Mathlib

/-!
Shallow embedding of the nautifier event-deduplication core:
webhook receiver (src/slack_webhook_handler/main.py) and event processor
(src/slack_events/main.py). External services are modelled explicitly:
the Firestore ledger is an association list from event identifier to
status string, the Cloud Tasks queue is a list of enqueued event
payloads, and infrastructure failures (Firestore write failing, task
creation failing, rollback delete failing) are injected through an
environment of booleans. Python string truthiness (None and the empty
string are falsy) is modelled by pyOr and truthy on Option String.
-/

namespace Nautifier

/-- Python `a or b` on optional strings: None and the empty string are falsy. -/
def pyOr (a b : Option String) : Option String :=
  match a with
  | some s => if s = "" then b else some s
  | none => b

/-- Python truthiness of an optional string. -/
def truthy : Option String → Bool
  | none => false
  | some s => s ≠ ""

/-- The fields of a Slack event object that the two entry points read.
Each field models dict.get on the corresponding key; absent keys are none. -/
structure Event where
  event_id : Option String := none
  event_ts : Option String := none
  ts : Option String := none
  channel : Option String := none
  deriving Repr, DecidableEq

/-- Infrastructure failure injection for the webhook side: whether the
Firestore create raises a non-AlreadyExists exception, whether Cloud Tasks
create_task raises, and whether the rollback delete raises. -/
structure Env where
  firestoreFails : Bool := false
  taskFails : Bool := false
  deleteFails : Bool := false
  deriving Repr, DecidableEq

/-- State owned by the webhook receiver side: the processed_events Firestore
collection (event id to status field of the document) and the Cloud Tasks
queue contents. -/
structure WebhookState where
  ledger : List (String × String) := []
  queue : List Event := []
  deriving Repr, DecidableEq

/-- create_cloud_task from src/slack_webhook_handler/main.py lines 34-87.
Derives the id as event_data.get("event_id") or event_data.get("event_ts");
returns False when the id is falsy, when the Firestore create raises (either
AlreadyExists for a duplicate or any other exception), or when task creation
fails (after attempting to delete the ledger document); returns True and
appends the task only when the document was created and the task enqueued. -/
def create_cloud_task (env : Env) (st : WebhookState) (event_data : Event) :
    Bool × WebhookState :=
  match pyOr event_data.event_id event_data.event_ts with
  | none => (false, st)
  | some event_id =>
    if event_id = "" then (false, st)
    else if env.firestoreFails then (false, st)
    else if (st.ledger.lookup event_id).isSome then (false, st)
    else
      let st1 : WebhookState := { st with ledger := st.ledger ++ [(event_id, "queued")] }
      if env.taskFails then
        if env.deleteFails then (false, st1)
        else (false, { st1 with ledger := st1.ledger.eraseP (fun p => p.1 == event_id) })
      else (true, { st1 with queue := st.queue ++ [event_data] })

/-- The fields of the inbound webhook JSON payload that the receiver reads. -/
structure Payload where
  type : Option String := none
  challenge : Option String := none
  event : Option Event := none
  deriving Repr, DecidableEq

/-- Responses the webhook receiver can return. jsonError is a JSON body with
an error key; plain is a raw body with the Content-Type text/plain header;
jsonStatus is a JSON body with a status key. The number is the HTTP code. -/
inductive WebhookResponse where
  | jsonError (msg : String) (code : ℕ)
  | plain (body : Option String) (code : ℕ)
  | jsonStatus (s : String) (code : ℕ)
  deriving Repr, DecidableEq

/-- slack_webhook_handler from src/slack_webhook_handler/main.py lines 89-128.
The request argument is none when get_json yields a falsy payload. -/
def slack_webhook_handler (env : Env) (st : WebhookState) (req : Option Payload) :
    WebhookResponse × WebhookState :=
  match req with
  | none => (.jsonError "No JSON payload" 400, st)
  | some payload =>
    if payload.type = some "url_verification" then
      (.plain payload.challenge 200, st)
    else if payload.type = some "event_callback" then
      let event := payload.event.getD {}
      let r := create_cloud_task env st event
      (if r.1 then WebhookResponse.jsonStatus "queued" 200
       else WebhookResponse.jsonStatus "already_queued_or_error" 200, r.2)
    else (.jsonStatus "unsupported_event" 200, st)

/-- Channel constants from src/slack_events/main.py lines 17-21. -/
def NAUTIFIER_SANDBOX_CHANNEL : String := "C08KR42C85C"

/-- weekly-industry-updates channel id. -/
def WEEKLY_INDUSTRY_UPDATES_CHANNEL : String := "C08AEB7H0JE"

/-- Tag Management channel id. -/
def TAG_MANAGEMENT_CHANNEL : String := "C01SK3F164U"

/-- LEAVES_CHANNEL is aliased to NAUTIFIER_SANDBOX_CHANNEL in the source. -/
def LEAVES_CHANNEL : String := NAUTIFIER_SANDBOX_CHANNEL

/-- Seconds an event id is retained in the in-memory cache. -/
def EVENT_EXPIRY_TIME : ℕ := 60

/-- is_duplicate_event from src/slack_events/main.py lines 27-45. The module
global EVENT_CACHE and time.time() are passed explicitly; time is in whole
seconds as a natural number. Expired entries are evicted first, then the id
is looked up; a miss records the id at the current time and reports false. -/
def is_duplicate_event (cache : List (String × ℕ)) (current_time : ℕ)
    (event_id : String) : Bool × List (String × ℕ) :=
  let cache1 := cache.filter (fun kv => !(decide (current_time - kv.2 > EVENT_EXPIRY_TIME)))
  if (cache1.lookup event_id).isSome then (true, cache1)
  else (false, cache1 ++ [(event_id, current_time)])

/-- Body of a processor response: a JSON object with a status key, a JSON
object with an error key, or an arbitrary handler-produced body. -/
inductive RespBody where
  | status (s : String)
  | error (s : String)
  | raw (s : String)
  deriving Repr, DecidableEq

/-- Outcome of invoking a domain handler on an event: a returned
(body, HTTP code) pair, or a raised exception with a message. -/
inductive HandlerOutcome where
  | ret (body : RespBody) (code : ℕ)
  | raise (msg : String)
  deriving Repr, DecidableEq

/-- The three domain handlers the processor routes to, kept abstract: the
spec treats them as external collaborators. -/
structure Handlers where
  tag : Event → HandlerOutcome
  leaves : Event → HandlerOutcome
  articles : Event → HandlerOutcome

/-- The JSON body delivered to the processor entry point: not a dict at all,
a dict containing an event key whose value is the event object, or a dict
without an event key whose own fields are read as the event. -/
inductive ProcInput where
  | notDict
  | dictWithEvent (e : Event)
  | dictBare (e : Event)
  deriving Repr, DecidableEq

/-- Result of one processor invocation: response body, HTTP code, the
EVENT_CACHE contents afterwards, and the names of the domain handlers that
were invoked during the call. -/
structure ProcResult where
  body : RespBody
  code : ℕ
  cache : List (String × ℕ)
  invoked : List String
  deriving Repr, DecidableEq

/-- slack_event_processor from src/slack_events/main.py lines 47-89. A
handler that raises is caught by the outer except and converted to a JSON
error body with HTTP 200; the cache mutation made by is_duplicate_event
before the handler ran is kept, since EVENT_CACHE is a module global. -/
def slack_event_processor (h : Handlers) (cache : List (String × ℕ)) (now : ℕ)
    (input : ProcInput) : ProcResult :=
  match input with
  | .notDict => ⟨.status "invalid_event", 200, cache, []⟩
  | .dictWithEvent e | .dictBare e =>
    match pyOr e.ts e.event_ts with
    | none => ⟨.status "missing_event_id", 200, cache, []⟩
    | some event_id =>
      if event_id = "" then ⟨.status "missing_event_id", 200, cache, []⟩
      else
        let r := is_duplicate_event cache now event_id
        if r.1 then ⟨.status "duplicate_skipped", 200, r.2, []⟩
        else
          let run : String → HandlerOutcome → ProcResult := fun name o =>
            match o with
            | .ret b c => ⟨b, c, r.2, [name]⟩
            | .raise m => ⟨.error m, 200, r.2, [name]⟩
          if e.channel = some TAG_MANAGEMENT_CHANNEL then run "tag" (h.tag e)
          else if e.channel = some LEAVES_CHANNEL then run "leaves" (h.leaves e)
          else if e.channel = some WEEKLY_INDUSTRY_UPDATES_CHANNEL then
            run "articles" (h.articles e)
          else ⟨.status "ok", 200, r.2, []⟩

/-- Whole-system state: the durable ledger and queue owned by the webhook
side, and the in-memory processor cache. The processor module imports no
Firestore client, so a processor invocation can only change the cache. -/
structure SysState where
  ledger : List (String × String) := []
  queue : List Event := []
  cache : List (String × ℕ) := []
  deriving Repr, DecidableEq

/-- Delivery of one queued task to the processor, lifted to the whole-system
state: slack_event_processor runs on the cache component and the durable
ledger and queue pass through untouched, exactly as in the source, where
src/slack_events/main.py has no reference to the ledger store. -/
def processor_step (h : Handlers) (s : SysState) (now : ℕ) (input : ProcInput) :
    (RespBody × ℕ) × SysState :=
  let r := slack_event_processor h s.cache now input
  ((r.body, r.code), { s with cache := r.cache })

/-- Environment with no injected infrastructure failures. -/
def cleanEnv : Env := {}

/-- Handlers used for concrete evaluations: every handler returns a fixed
raw body with HTTP 200. -/
def constHandlers : Handlers :=
  ⟨fun _ => .ret (.raw "h") 200, fun _ => .ret (.raw "h") 200, fun _ => .ret (.raw "h") 200⟩

/-- Modelled from the spec, section 6: the response statuses the spec says
the processor entry point produces. -/
def specProcessorStatus (s : String) : Prop :=
  s = "ok" ∨ s = "already_processed" ∨ s = "missing_event_id" ∨ s = "invalid_event"

/-- Modelled from the spec, sections 4.3 and 7: a webhook response signals
the upstream sender to retry the delivery exactly when its HTTP code is not
a 2xx success code. -/
def signalsRetry : WebhookResponse → Prop
  | .jsonError _ c => ¬(200 ≤ c ∧ c < 300)
  | .plain _ c => ¬(200 ≤ c ∧ c < 300)
  | .jsonStatus _ c => ¬(200 ≤ c ∧ c < 300)

/-- The handler field of Handlers selected by the name recorded in
ProcResult.invoked. -/
def handlerOf (h : Handlers) : String → Event → HandlerOutcome
  | "tag", e => h.tag e
  | "leaves", e => h.leaves e
  | "articles", e => h.articles e
  | _, _ => .ret (.raw "") 0

/-- The processor result agrees with a handler outcome: a returned pair is
passed through unchanged, a raised fault becomes a JSON error body with
HTTP 200. -/
def responseMatches (o : HandlerOutcome) (r : ProcResult) : Prop :=
  match o with
  | .ret b c => r.body = b ∧ r.code = c
  | .raise m => r.body = .error m ∧ r.code = 200

/-- Lookup misses survive filtering an association list. -/
theorem lookup_filter_none {α β : Type} [BEq α] (a : α) (p : α × β → Bool)
    (l : List (α × β)) (h : l.lookup a = none) : (l.filter p).lookup a = none := by
  induction l with
  | nil => simp [List.filter]
  | cons kv tl ih =>
    rw [List.lookup] at h
    cases hb : a == kv.1 with
    | true => rw [hb] at h; simp at h
    | false =>
      rw [hb] at h
      cases hp : p kv with
      | true => rw [List.filter_cons_of_pos hp, List.lookup, hb]; exact ih h
      | false => rw [List.filter_cons_of_neg (by simp [hp])]; exact ih h

/-- Looking up a key appended to an association list that does not already
contain it finds the appended value. -/
theorem lookup_append_self {α β : Type} [BEq α] [LawfulBEq α] (a : α) (b : β)
    (l : List (α × β)) (h : l.lookup a = none) : (l ++ [(a, b)]).lookup a = some b := by
  induction l with
  | nil => simp [List.lookup]
  | cons kv tl ih =>
    rw [List.lookup] at h
    cases hb : a == kv.1 with
    | true => rw [hb] at h; simp at h
    | false =>
      rw [hb] at h
      rw [List.cons_append, List.lookup, hb]
      exact ih h

/-- Erasing a key appended to an association list that does not already
contain it restores the original list. -/
theorem eraseP_append_self {α β : Type} [BEq α] [LawfulBEq α] (a : α) (b : β)
    (l : List (α × β)) (h : l.lookup a = none) :
    (l ++ [(a, b)]).eraseP (fun p => p.1 == a) = l := by
  induction l with
  | nil => simp [List.eraseP]
  | cons kv tl ih =>
    rw [List.lookup] at h
    cases hb : a == kv.1 with
    | true => rw [hb] at h; simp at h
    | false =>
      rw [hb] at h
      rw [List.cons_append, List.eraseP_cons]
      have hba : (kv.1 == a) = false := by
        simp only [beq_eq_false_iff_ne] at hb ⊢
        exact fun hk => hb hk.symm
      rw [hba]
      simp only [cond_false]
      rw [ih h]

/-- Alternation branches of the processor input match coincide: a payload
wrapping the event under an event key is processed exactly like the bare
event object. -/
theorem proc_input_alternation (h : Handlers) (cache : List (String × ℕ)) (now : ℕ)
    (e : Event) :
    slack_event_processor h cache now (.dictWithEvent e)
      = slack_event_processor h cache now (.dictBare e) := rfl

/-- is_duplicate_event reports false exactly when the id is absent from the
cache after eviction of expired entries. -/
theorem is_duplicate_event_false_iff (cache : List (String × ℕ)) (now : ℕ) (id : String) :
    (is_duplicate_event cache now id).1 = false ↔
      (cache.filter (fun kv => !(decide (now - kv.2 > EVENT_EXPIRY_TIME)))).lookup id
        = none := by
  by_cases hc :
      (cache.filter (fun kv => !(decide (now - kv.2 > EVENT_EXPIRY_TIME)))).lookup id = none
  · simp [is_duplicate_event, hc]
  · have hs := Option.isSome_iff_ne_none.mpr hc
    simp [is_duplicate_event, hs, hc]

/-- After a miss, the cache holds the surviving entries plus the new id
stamped with the current time. -/
theorem is_duplicate_event_snd_of_false (cache : List (String × ℕ)) (now : ℕ)
    (id : String) (h : (is_duplicate_event cache now id).1 = false) :
    (is_duplicate_event cache now id).2
      = cache.filter (fun kv => !(decide (now - kv.2 > EVENT_EXPIRY_TIME))) ++ [(id, now)] := by
  have hc := (is_duplicate_event_false_iff cache now id).mp h
  simp [is_duplicate_event, hc]

/-- C9: the receiver keys the ledger by event_id or event_ts while the
processor keys its cache by ts or event_ts; an event carrying only an
event_id field is recorded in the ledger and enqueued by the receiver, yet
the processor rejects it with status missing_event_id and invokes no
handler, whether or not the payload wraps it under an event key. -/
theorem C9_key_field_mismatch :
    create_cloud_task cleanEnv {} { event_id := some "Ev1" }
      = (true, { ledger := [("Ev1", "queued")], queue := [{ event_id := some "Ev1" }] }) ∧
    slack_event_processor constHandlers [] 0 (.dictBare { event_id := some "Ev1" })
      = ⟨.status "missing_event_id", 200, [], []⟩ ∧
    slack_event_processor constHandlers [] 0 (.dictWithEvent { event_id := some "Ev1" })
      = ⟨.status "missing_event_id", 200, [], []⟩ := by
  refine ⟨?_, ?_, ?_⟩ <;> decide

/-- C2 counterexample: with the ledger entry for T1 already marked
completed, the processor still invokes the domain handler for the event and
returns the handler body, not an already-processed response: the processor
does not read the ledger at all. -/
theorem C2_counterexample :
    (slack_event_processor constHandlers [] 0
        (.dictBare { ts := some "T1", channel := some TAG_MANAGEMENT_CHANNEL })).invoked
      = ["tag"] ∧
    (processor_step constHandlers { ledger := [("T1", "completed")] } 0
        (.dictBare { ts := some "T1", channel := some TAG_MANAGEMENT_CHANNEL })).1
      = (.raw "h", 200) ∧
    (RespBody.raw "h", 200) ≠ (RespBody.status "already_processed", 200) := by
  refine ⟨?_, ?_, ?_⟩ <;> decide

/-- C5 counterexample: when the Firestore write fails for infrastructure
reasons on a fresh event, the receiver responds with HTTP 200 and status
already_queued_or_error, a success response that does not signal the
upstream sender to retry. -/
theorem C5_counterexample :
    slack_webhook_handler { firestoreFails := true } {}
        (some { type := some "event_callback", event := some { event_id := some "E5" } })
      = (.jsonStatus "already_queued_or_error" 200, {}) ∧
    ¬ signalsRetry (.jsonStatus "already_queued_or_error" 200) := by
  constructor
  · decide
  · simp [signalsRetry]

/-- C8 counterexample: a redelivery within the cache window yields status
duplicate_skipped, which is outside the status set the spec lists for the
processor entry point. -/
theorem C8_counterexample :
    (slack_event_processor constHandlers [("T1", 0)] 10 (.dictBare { ts := some "T1" })).body
      = .status "duplicate_skipped" ∧
    ¬ specProcessorStatus "duplicate_skipped" := by
  constructor
  · decide
  · simp [specProcessorStatus]

/-- C3 counterexample: the domain handler for the tag channel raises, the
processor returns the fault as a JSON error body with HTTP 200, and the
ledger entry for the event is still queued afterwards: no try_complete
transition to completed is performed, since the processor has no ledger
access. -/
theorem C3_counterexample :
    (processor_step ⟨fun _ => .raise "boom", constHandlers.leaves, constHandlers.articles⟩
        { ledger := [("11.22", "queued")] } 0
        (.dictBare { ts := some "11.22", channel := some TAG_MANAGEMENT_CHANNEL })).1
      = (.error "boom", 200) ∧
    (processor_step ⟨fun _ => .raise "boom", constHandlers.leaves, constHandlers.articles⟩
        { ledger := [("11.22", "queued")] } 0
        (.dictBare { ts := some "11.22", channel := some TAG_MANAGEMENT_CHANNEL })).2.ledger.lookup
        "11.22" = some "queued" ∧
    some "queued" ≠ some "completed" := by
  refine ⟨?_, ?_, ?_⟩ <;> decide

/-- C1: for a fresh event id with no injected failures, the first ledger
create succeeds and the second observes the duplicate; accordingly the first
webhook delivery of the payload answers status queued, the second answers
status already_queued_or_error, both HTTP 200, and exactly one task is
appended to the queue across the two deliveries. -/
theorem C1_exactly_once_enqueue (e : Event) (s : WebhookState) (id : String)
    (hid : pyOr e.event_id e.event_ts = some id) (hne : id ≠ "")
    (hfresh : s.ledger.lookup id = none) :
    (create_cloud_task cleanEnv s e).1 = true ∧
    (create_cloud_task cleanEnv (create_cloud_task cleanEnv s e).2 e).1 = false ∧
    (slack_webhook_handler cleanEnv s
        (some { type := some "event_callback", event := some e })).1
      = .jsonStatus "queued" 200 ∧
    (slack_webhook_handler cleanEnv
        (slack_webhook_handler cleanEnv s
          (some { type := some "event_callback", event := some e })).2
        (some { type := some "event_callback", event := some e })).1
      = .jsonStatus "already_queued_or_error" 200 ∧
    (slack_webhook_handler cleanEnv
        (slack_webhook_handler cleanEnv s
          (some { type := some "event_callback", event := some e })).2
        (some { type := some "event_callback", event := some e })).2.queue
      = s.queue ++ [e] := by
  have hsome := lookup_append_self id "queued" s.ledger hfresh
  simp [slack_webhook_handler, create_cloud_task, cleanEnv, hid, hne, hfresh, hsome]

/-- C1 witness at event id T1 from the empty state. -/
theorem C1_exactly_once_enqueue_witness :
    pyOr (some "T1") none = some "T1" ∧ "T1" ≠ "" ∧
    List.lookup "T1" ([] : List (String × String)) = none ∧
    ((create_cloud_task cleanEnv {} { event_id := some "T1" }).1 = true ∧
     (create_cloud_task cleanEnv
        (create_cloud_task cleanEnv {} { event_id := some "T1" }).2
        { event_id := some "T1" }).1 = false ∧
     (slack_webhook_handler cleanEnv {}
        (some { type := some "event_callback", event := some { event_id := some "T1" } })).1
       = .jsonStatus "queued" 200 ∧
     (slack_webhook_handler cleanEnv
        (slack_webhook_handler cleanEnv {}
          (some { type := some "event_callback", event := some { event_id := some "T1" } })).2
        (some { type := some "event_callback", event := some { event_id := some "T1" } })).1
       = .jsonStatus "already_queued_or_error" 200 ∧
     (slack_webhook_handler cleanEnv
        (slack_webhook_handler cleanEnv {}
          (some { type := some "event_callback", event := some { event_id := some "T1" } })).2
        (some { type := some "event_callback", event := some { event_id := some "T1" } })).2.queue
       = ({} : WebhookState).queue ++ [{ event_id := some "T1" }]) :=
  ⟨by decide, by decide, by decide,
   C1_exactly_once_enqueue { event_id := some "T1" } {} "T1" (by decide) (by decide) (by decide)⟩

/-- C4: if the ledger create succeeds but task creation fails and the
rollback delete goes through, the state is restored exactly, and a
subsequent attempt for the same event id with healthy infrastructure
creates a fresh entry. -/
theorem C4_rollback_on_enqueue_failure (e : Event) (s : WebhookState) (id : String)
    (hid : pyOr e.event_id e.event_ts = some id) (hne : id ≠ "")
    (hfresh : s.ledger.lookup id = none) :
    create_cloud_task { taskFails := true } s e = (false, s) ∧
    (create_cloud_task cleanEnv s e).1 = true := by
  have her := eraseP_append_self id "queued" s.ledger hfresh
  simp [create_cloud_task, cleanEnv, hid, hne, hfresh, her]

/-- C4 witness at event id T4 from the empty state. -/
theorem C4_rollback_on_enqueue_failure_witness :
    pyOr (some "T4") none = some "T4" ∧ "T4" ≠ "" ∧
    List.lookup "T4" ([] : List (String × String)) = none ∧
    (create_cloud_task { taskFails := true } {} { event_id := some "T4" } = (false, {}) ∧
     (create_cloud_task cleanEnv {} { event_id := some "T4" }).1 = true) :=
  ⟨by decide, by decide, by decide,
   C4_rollback_on_enqueue_failure { event_id := some "T4" } {} "T4"
     (by decide) (by decide) (by decide)⟩

/-- C6: a url_verification payload with a challenge string is answered with
exactly that string as a plain-text body, HTTP 200, and the state is
unchanged: no ledger write and no enqueue. -/
theorem C6_url_verification_echo (env : Env) (s : WebhookState) (p : Payload) (c : String)
    (htype : p.type = some "url_verification") (hch : p.challenge = some c) :
    slack_webhook_handler env s (some p) = (.plain (some c) 200, s) := by
  simp [slack_webhook_handler, htype, hch]

/-- C6 witness at challenge abc123. -/
theorem C6_url_verification_echo_witness :
    (Payload.mk (some "url_verification") (some "abc123") none).type
      = some "url_verification" ∧
    (Payload.mk (some "url_verification") (some "abc123") none).challenge
      = some "abc123" ∧
    slack_webhook_handler cleanEnv {}
        (some (Payload.mk (some "url_verification") (some "abc123") none))
      = (.plain (some "abc123") 200, {}) :=
  ⟨rfl, rfl,
   C6_url_verification_echo cleanEnv {}
     (Payload.mk (some "url_verification") (some "abc123") none) "abc123" rfl rfl⟩

/-- C7: an event with a valid id that is not a cache duplicate and whose
channel matches none of the three routing entries is answered with status
ok, HTTP 200, no handler invoked, for both payload shapes. -/
theorem C7_unmapped_channel_noop (h : Handlers) (cache : List (String × ℕ)) (now : ℕ)
    (e : Event) (id : String)
    (hid : pyOr e.ts e.event_ts = some id) (hne : id ≠ "")
    (hdup : (is_duplicate_event cache now id).1 = false)
    (h1 : e.channel ≠ some TAG_MANAGEMENT_CHANNEL)
    (h2 : e.channel ≠ some LEAVES_CHANNEL)
    (h3 : e.channel ≠ some WEEKLY_INDUSTRY_UPDATES_CHANNEL) :
    slack_event_processor h cache now (.dictBare e)
      = ⟨.status "ok", 200, (is_duplicate_event cache now id).2, []⟩ ∧
    slack_event_processor h cache now (.dictWithEvent e)
      = ⟨.status "ok", 200, (is_duplicate_event cache now id).2, []⟩ := by
  constructor <;>
    simp [slack_event_processor, hid, hne, hdup, h1, h2, h3]

/-- C7 witness at event id 7.7 on the unmapped channel Cnone. -/
theorem C7_unmapped_channel_noop_witness :
    pyOr (some "7.7") none = some "7.7" ∧ "7.7" ≠ "" ∧
    (is_duplicate_event [] 0 "7.7").1 = false ∧
    (some "Cnone" : Option String) ≠ some TAG_MANAGEMENT_CHANNEL ∧
    (some "Cnone" : Option String) ≠ some LEAVES_CHANNEL ∧
    (some "Cnone" : Option String) ≠ some WEEKLY_INDUSTRY_UPDATES_CHANNEL ∧
    (slack_event_processor constHandlers [] 0
        (.dictBare { ts := some "7.7", channel := some "Cnone" })
      = ⟨.status "ok", 200, (is_duplicate_event [] 0 "7.7").2, []⟩ ∧
     slack_event_processor constHandlers [] 0
        (.dictWithEvent { ts := some "7.7", channel := some "Cnone" })
      = ⟨.status "ok", 200, (is_duplicate_event [] 0 "7.7").2, []⟩) :=
  ⟨by decide, by decide, by decide, by decide, by decide, by decide,
   C7_unmapped_channel_noop constHandlers [] 0
     { ts := some "7.7", channel := some "Cnone" } "7.7"
     (by decide) (by decide) (by decide) (by decide) (by decide) (by decide)⟩

/-- C10: duplicate suppression is time-bounded. If an id was not a
duplicate at time t, a later check more than EVENT_EXPIRY_TIME seconds
after t on the cache produced by the first check again reports not a
duplicate, because the entry has been evicted; hence an event on a mapped
channel is routed to its handler on the first delivery and routed again on
a redelivery after the window, the intermediate cache being exactly the one
the first processor call left behind. -/
theorem C10_cache_expiry_reprocessing (cache : List (String × ℕ)) (t tl : ℕ)
    (id : String) (h : Handlers) (e : Event)
    (h1 : (is_duplicate_event cache t id).1 = false)
    (h2 : tl - t > EVENT_EXPIRY_TIME)
    (hts : e.ts = some id) (hne : id ≠ "")
    (hch : e.channel = some TAG_MANAGEMENT_CHANNEL) :
    (is_duplicate_event (is_duplicate_event cache t id).2 tl id).1 = false ∧
    (slack_event_processor h cache t (.dictBare e)).invoked = ["tag"] ∧
    (slack_event_processor h cache t (.dictBare e)).cache
      = (is_duplicate_event cache t id).2 ∧
    (slack_event_processor h (is_duplicate_event cache t id).2 tl (.dictBare e)).invoked
      = ["tag"] := by
  have hl := (is_duplicate_event_false_iff cache t id).mp h1
  have hsnd := is_duplicate_event_snd_of_false cache t id h1
  have hsecond : (is_duplicate_event (is_duplicate_event cache t id).2 tl id).1 = false := by
    rw [is_duplicate_event_false_iff, hsnd, List.filter_append]
    have hdrop :
        List.filter (fun kv => !(decide (tl - kv.2 > EVENT_EXPIRY_TIME))) [(id, t)] = [] := by
      simp [h2]
    rw [hdrop, List.append_nil]
    exact lookup_filter_none id _ _ hl
  have hpy : pyOr e.ts e.event_ts = some id := by rw [hts]; simp [pyOr, hne]
  refine ⟨hsecond, ?_, ?_, ?_⟩
  · cases hout : h.tag e <;> simp [slack_event_processor, hpy, hne, h1, hch, hout]
  · cases hout : h.tag e <;> simp [slack_event_processor, hpy, hne, h1, hch, hout]
  · cases hout : h.tag e <;> simp [slack_event_processor, hpy, hne, hsecond, hch, hout]

/-- C10 witness: id T1 first seen at time 0, redelivered at time 61. -/
theorem C10_cache_expiry_reprocessing_witness :
    (is_duplicate_event [] 0 "T10").1 = false ∧ (61 : ℕ) - 0 > EVENT_EXPIRY_TIME ∧
    (Event.mk none none (some "T10") (some TAG_MANAGEMENT_CHANNEL)).ts = some "T10" ∧
    "T10" ≠ "" ∧
    (Event.mk none none (some "T10") (some TAG_MANAGEMENT_CHANNEL)).channel
      = some TAG_MANAGEMENT_CHANNEL ∧
    ((is_duplicate_event (is_duplicate_event [] 0 "T10").2 61 "T10").1 = false ∧
     (slack_event_processor constHandlers [] 0
        (.dictBare (Event.mk none none (some "T10") (some TAG_MANAGEMENT_CHANNEL)))).invoked
       = ["tag"] ∧
     (slack_event_processor constHandlers [] 0
        (.dictBare (Event.mk none none (some "T10") (some TAG_MANAGEMENT_CHANNEL)))).cache
       = (is_duplicate_event [] 0 "T10").2 ∧
     (slack_event_processor constHandlers (is_duplicate_event [] 0 "T10").2 61
        (.dictBare (Event.mk none none (some "T10") (some TAG_MANAGEMENT_CHANNEL)))).invoked
       = ["tag"]) :=
  ⟨by decide, by decide, by decide, by decide, by decide,
   C10_cache_expiry_reprocessing [] 0 61 "T10" constHandlers
     (Event.mk none none (some "T10") (some TAG_MANAGEMENT_CHANNEL))
     (by decide) (by decide) (by decide) (by decide) (by decide)⟩

/-- C2 amended: the processor does not consult the durable ledger;
duplicate suppression is the in-memory cache with 60-second expiry. A
redelivery whose id is still live in the cache is answered with status
duplicate_skipped, HTTP 200, no handler invoked, and the ledger and queue
are untouched, for either payload shape. -/
theorem C2_amended_cache_duplicate (h : Handlers) (s : SysState) (now : ℕ)
    (e : Event) (id : String) (input : ProcInput)
    (hin : input = .dictWithEvent e ∨ input = .dictBare e)
    (hid : pyOr e.ts e.event_ts = some id) (hne : id ≠ "")
    (hdup : (is_duplicate_event s.cache now id).1 = true) :
    (processor_step h s now input).1 = (.status "duplicate_skipped", 200) ∧
    (slack_event_processor h s.cache now input).invoked = [] ∧
    (processor_step h s now input).2.ledger = s.ledger ∧
    (processor_step h s now input).2.queue = s.queue := by
  rcases hin with rfl | rfl <;>
    simp [processor_step, slack_event_processor, hid, hne, hdup]

/-- C2 amended witness: id T1 cached at time 0, redelivered at time 10. -/
theorem C2_amended_cache_duplicate_witness :
    ((ProcInput.dictBare { ts := some "T1" }) = ProcInput.dictWithEvent { ts := some "T1" } ∨
      (ProcInput.dictBare { ts := some "T1" }) = ProcInput.dictBare { ts := some "T1" }) ∧
    pyOr (some "T1") none = some "T1" ∧ "T1" ≠ "" ∧
    (is_duplicate_event [("T1", 0)] 10 "T1").1 = true ∧
    ((processor_step constHandlers { cache := [("T1", 0)] } 10
        (.dictBare { ts := some "T1" })).1 = (.status "duplicate_skipped", 200) ∧
     (slack_event_processor constHandlers
        (SysState.cache { cache := [("T1", 0)] }) 10
        (.dictBare { ts := some "T1" })).invoked = [] ∧
     (processor_step constHandlers { cache := [("T1", 0)] } 10
        (.dictBare { ts := some "T1" })).2.ledger
       = (SysState.ledger { cache := [("T1", 0)] }) ∧
     (processor_step constHandlers { cache := [("T1", 0)] } 10
        (.dictBare { ts := some "T1" })).2.queue
       = (SysState.queue { cache := [("T1", 0)] })) :=
  ⟨Or.inr rfl, by decide, by decide, by decide,
   C2_amended_cache_duplicate constHandlers { cache := [("T1", 0)] } 10
     { ts := some "T1" } "T1" (.dictBare { ts := some "T1" })
     (Or.inr rfl) (by decide) (by decide) (by decide)⟩

/-- C3 amended: a raised handler fault is caught and answered as a JSON
error body with HTTP 200, and the processor performs no ledger transition:
every processor invocation leaves the ledger exactly as it was. -/
theorem C3_amended_fault_caught (h : Handlers) (s : SysState) (now : ℕ)
    (e : Event) (id m : String) (input : ProcInput)
    (hin : input = .dictWithEvent e ∨ input = .dictBare e)
    (hid : pyOr e.ts e.event_ts = some id) (hne : id ≠ "")
    (hdup : (is_duplicate_event s.cache now id).1 = false)
    (hch : e.channel = some TAG_MANAGEMENT_CHANNEL)
    (hraise : h.tag e = .raise m) :
    (processor_step h s now input).1 = (.error m, 200) ∧
    (∀ input2 : ProcInput, (processor_step h s now input2).2.ledger = s.ledger) := by
  constructor
  · rcases hin with rfl | rfl <;>
      simp [processor_step, slack_event_processor, hid, hne, hdup, hch, hraise]
  · intro input2
    rfl

/-- C3 amended witness: the tag handler raises boom on event id 11.22. -/
theorem C3_amended_fault_caught_witness :
    ((ProcInput.dictBare { ts := some "11.22", channel := some TAG_MANAGEMENT_CHANNEL })
        = ProcInput.dictWithEvent
            { ts := some "11.22", channel := some TAG_MANAGEMENT_CHANNEL } ∨
      (ProcInput.dictBare { ts := some "11.22", channel := some TAG_MANAGEMENT_CHANNEL })
        = ProcInput.dictBare
            { ts := some "11.22", channel := some TAG_MANAGEMENT_CHANNEL }) ∧
    pyOr (some "11.22") none = some "11.22" ∧ "11.22" ≠ "" ∧
    (is_duplicate_event [] 0 "11.22").1 = false ∧
    (Event.channel { ts := some "11.22", channel := some TAG_MANAGEMENT_CHANNEL })
      = some TAG_MANAGEMENT_CHANNEL ∧
    Handlers.tag
        ⟨fun _ => .raise "boom", constHandlers.leaves, constHandlers.articles⟩
        { ts := some "11.22", channel := some TAG_MANAGEMENT_CHANNEL }
      = .raise "boom" ∧
    ((processor_step
        ⟨fun _ => .raise "boom", constHandlers.leaves, constHandlers.articles⟩
        { ledger := [("11.22", "queued")] } 0
        (.dictBare { ts := some "11.22", channel := some TAG_MANAGEMENT_CHANNEL })).1
      = (.error "boom", 200) ∧
     (∀ input2 : ProcInput,
        (processor_step
          ⟨fun _ => .raise "boom", constHandlers.leaves, constHandlers.articles⟩
          { ledger := [("11.22", "queued")] } 0 input2).2.ledger
          = (SysState.ledger { ledger := [("11.22", "queued")] }))) :=
  ⟨Or.inr rfl, by decide, by decide, by decide, by decide, rfl,
   C3_amended_fault_caught
     ⟨fun _ => .raise "boom", constHandlers.leaves, constHandlers.articles⟩
     { ledger := [("11.22", "queued")] } 0
     { ts := some "11.22", channel := some TAG_MANAGEMENT_CHANNEL } "11.22" "boom"
     (.dictBare { ts := some "11.22", channel := some TAG_MANAGEMENT_CHANNEL })
     (Or.inr rfl) (by decide) (by decide) (by decide) (by decide) rfl⟩

/-- C5 amended: when the Firestore write fails, or task creation fails on a
fresh entry, the receiver answers HTTP 200 with status
already_queued_or_error, the same success-shaped response as the duplicate
case, and does not signal the upstream sender to retry. -/
theorem C5_amended_infra_failure_response (env : Env) (s : WebhookState)
    (e : Event) (id : String)
    (hid : pyOr e.event_id e.event_ts = some id) (hne : id ≠ "")
    (hfail : env.firestoreFails = true ∨
      (env.taskFails = true ∧ s.ledger.lookup id = none)) :
    (slack_webhook_handler env s
        (some { type := some "event_callback", event := some e })).1
      = .jsonStatus "already_queued_or_error" 200 ∧
    ¬ signalsRetry (slack_webhook_handler env s
        (some { type := some "event_callback", event := some e })).1 := by
  have hr : (create_cloud_task env s e).1 = false := by
    rcases hfail with hf | ⟨ht, hfresh⟩
    · simp [create_cloud_task, hid, hne, hf]
    · by_cases hf : env.firestoreFails
      · simp [create_cloud_task, hid, hne, hf]
      · cases hd : env.deleteFails <;>
          simp [create_cloud_task, hid, hne, hf, hfresh, ht, hd]
  constructor
  · simp [slack_webhook_handler, hr]
  · simp [slack_webhook_handler, hr, signalsRetry]

/-- C5 amended witness: Firestore write failure on event id E5. -/
theorem C5_amended_infra_failure_response_witness :
    pyOr (some "E5") none = some "E5" ∧ "E5" ≠ "" ∧
    (Env.firestoreFails { firestoreFails := true } = true ∨
      (Env.taskFails { firestoreFails := true } = true ∧
        List.lookup "E5" (WebhookState.ledger {}) = none)) ∧
    ((slack_webhook_handler { firestoreFails := true } {}
        (some { type := some "event_callback", event := some { event_id := some "E5" } })).1
      = .jsonStatus "already_queued_or_error" 200 ∧
     ¬ signalsRetry (slack_webhook_handler { firestoreFails := true } {}
        (some { type := some "event_callback",
                event := some { event_id := some "E5" } })).1) :=
  ⟨by decide, by decide, Or.inl rfl,
   C5_amended_infra_failure_response { firestoreFails := true } {}
     { event_id := some "E5" } "E5" (by decide) (by decide) (Or.inl rfl)⟩

/-- C8 amended: on every path where no domain handler is invoked, the
processor answers HTTP 200 with a status body among ok, duplicate_skipped,
missing_event_id, invalid_event; on every other path exactly one handler is
invoked and the processor returns that handler response unchanged, a raised
fault becoming a JSON error body with HTTP 200. -/
theorem C8_amended_response_partition (h : Handlers) (cache : List (String × ℕ))
    (now : ℕ) (input : ProcInput) :
    ((slack_event_processor h cache now input).invoked = [] ∧
     (slack_event_processor h cache now input).code = 200 ∧
     ((slack_event_processor h cache now input).body = .status "ok" ∨
      (slack_event_processor h cache now input).body = .status "duplicate_skipped" ∨
      (slack_event_processor h cache now input).body = .status "missing_event_id" ∨
      (slack_event_processor h cache now input).body = .status "invalid_event"))
    ∨ (∃ e name, (input = .dictWithEvent e ∨ input = .dictBare e) ∧
        (slack_event_processor h cache now input).invoked = [name] ∧
        responseMatches (handlerOf h name e) (slack_event_processor h cache now input)) := by
  have key : ∀ (e : Event),
      ((slack_event_processor h cache now (.dictBare e)).invoked = [] ∧
       (slack_event_processor h cache now (.dictBare e)).code = 200 ∧
       ((slack_event_processor h cache now (.dictBare e)).body = .status "ok" ∨
        (slack_event_processor h cache now (.dictBare e)).body
          = .status "duplicate_skipped" ∨
        (slack_event_processor h cache now (.dictBare e)).body
          = .status "missing_event_id" ∨
        (slack_event_processor h cache now (.dictBare e)).body
          = .status "invalid_event"))
      ∨ (∃ name,
          (slack_event_processor h cache now (.dictBare e)).invoked = [name] ∧
          responseMatches (handlerOf h name e)
            (slack_event_processor h cache now (.dictBare e))) := by
    intro e
    cases hpy : pyOr e.ts e.event_ts with
    | none => left; simp [slack_event_processor, hpy]
    | some id =>
      by_cases hne : id = ""
      · left; simp [slack_event_processor, hpy, hne]
      · by_cases hdup : (is_duplicate_event cache now id).1 = true
        · left; simp [slack_event_processor, hpy, hne, hdup]
        · rw [Bool.not_eq_true] at hdup
          by_cases hc1 : e.channel = some TAG_MANAGEMENT_CHANNEL
          · right
            refine ⟨"tag", ?_⟩
            cases hout : h.tag e <;>
              simp [slack_event_processor, handlerOf, responseMatches,
                hpy, hne, hdup, hc1, hout]
          · by_cases hc2 : e.channel = some LEAVES_CHANNEL
            · right
              refine ⟨"leaves", ?_⟩
              cases hout : h.leaves e <;>
                simp [slack_event_processor, handlerOf, responseMatches,
                  LEAVES_CHANNEL, NAUTIFIER_SANDBOX_CHANNEL, TAG_MANAGEMENT_CHANNEL,
                  hpy, hne, hdup, hc1, hc2, hout]
            · by_cases hc3 : e.channel = some WEEKLY_INDUSTRY_UPDATES_CHANNEL
              · right
                refine ⟨"articles", ?_⟩
                cases hout : h.articles e <;>
                  simp [slack_event_processor, handlerOf, responseMatches,
                    LEAVES_CHANNEL, NAUTIFIER_SANDBOX_CHANNEL, TAG_MANAGEMENT_CHANNEL,
                    WEEKLY_INDUSTRY_UPDATES_CHANNEL,
                    hpy, hne, hdup, hc1, hc2, hc3, hout]
              · left
                simp [slack_event_processor, hpy, hne, hdup, hc1, hc2, hc3]
  cases input with
  | notDict => left; simp [slack_event_processor]
  | dictWithEvent e =>
    rcases key e with hk | ⟨name, hk1, hk2⟩
    · left; rwa [proc_input_alternation]
    · right
      refine ⟨e, name, Or.inl rfl, ?_, ?_⟩
      · rwa [proc_input_alternation]
      · rwa [proc_input_alternation]
  | dictBare e =>
    rcases key e with hk | ⟨name, hk1, hk2⟩
    · left; exact hk
    · right; exact ⟨e, name, Or.inr rfl, hk1, hk2⟩

end Nautifier
